import Mathlib

/-!
Verification of the answer-verification and progress-aggregation engine of
the mathsIA API (a memocard quiz backend).

The embedding follows `app/services/memocard_service.py`
(`MemocardService.verify_answer`) and
`app/repositories/response_repository.py`
(`ResponseRepository.calculate_student_progress`).

Submitted answers and the values stored in a card content dict are untyped
Python values; they are modelled by the inductive `PyVal`. Python float
values are modelled by exact rationals. The MongoDB collections are
modelled as lists: the card catalog as a list of memocards and the
response ledger as a list of responses, appended in creation order.
-/

namespace MathsIA

/-- A Python runtime value, as it can appear in the untyped `answer`
field of a submission or inside a card content dict. Floats are modelled
by rationals. -/
inductive PyVal where
  | vnone
  | vbool (b : Bool)
  | vint (n : Int)
  | vfloat (q : Rat)
  | vstr (s : String)
  | vlist (l : List PyVal)

/-- The numeric value of a Python object when it belongs to the numeric
tower (bool, int, float); `none` otherwise. -/
def PyVal.toRat? : PyVal → Option Rat
  | .vbool b => some (if b then 1 else 0)
  | .vint n => some (n : Rat)
  | .vfloat q => some q
  | _ => none

/-- Python `==` on the scalar values of this API: numeric values (bool,
int, float) compare by numeric value, strings compare as strings, None
equals only None, and any other combination is unequal. -/
def pyScalarEq (a b : PyVal) : Bool :=
  match a, b with
  | .vnone, .vnone => true
  | .vstr s, .vstr t => s == t
  | a, b =>
    match a.toRat?, b.toRat? with
    | some x, some y => x == y
    | _, _ => false

/-- Python `==` on answer values: two lists compare elementwise (the
payloads of this API contain only flat lists of scalars, so elementwise
scalar comparison is the faithful model), a list never equals a
non-list, and scalars compare as scalars. -/
def pyEq (a b : PyVal) : Bool :=
  match a, b with
  | .vlist l, .vlist m =>
    l.length == m.length && (l.zip m).all (fun p => pyScalarEq p.1 p.2)
  | a, b => pyScalarEq a b

/-- Python truthiness of a value, as used by `if unit` and
`if not case_sensitive`. -/
def pyTruthy : PyVal → Bool
  | .vnone => false
  | .vbool b => b
  | .vint n => n != 0
  | .vfloat q => q != 0
  | .vstr s => s != ""
  | .vlist l => !l.isEmpty

/-- Value of a list of decimal digit characters. -/
def digitsVal (l : List Char) : Nat :=
  l.foldl (fun a c => a * 10 + (c.toNat - 48)) 0

/-- Apply a decimal exponent suffix (the part after `e`/`E`) to an
already parsed mantissa. `none` models a `ValueError`. -/
def parseExpDigits (m : Rat) (cs : List Char) : Option Rat :=
  let p : (Int × List Char) :=
    match cs with
    | '-' :: t => (-1, t)
    | '+' :: t => (1, t)
    | t => (1, t)
  if p.2.isEmpty || !(p.2.all Char.isDigit) then none
  else
    let e := digitsVal p.2
    some (if p.1 < 0 then m / 10 ^ e else m * 10 ^ e)

/-- Parse an optional exponent suffix after the mantissa. -/
def parseExp (m : Rat) : List Char → Option Rat
  | [] => some m
  | 'e' :: t => parseExpDigits m t
  | 'E' :: t => parseExpDigits m t
  | _ => none

/-- Model of Python `float(s)` on a string: optional surrounding spaces,
optional sign, decimal digits with an optional fractional part and an
optional exponent. `none` models a `ValueError`. -/
def parseFloat? (s : String) : Option Rat :=
  let cs := ((s.data.dropWhile (· == ' ')).reverse.dropWhile (· == ' ')).reverse
  let p : (Rat × List Char) :=
    match cs with
    | '-' :: t => (-1, t)
    | '+' :: t => (1, t)
    | t => (1, t)
  let intPart := p.2.takeWhile Char.isDigit
  let rest := p.2.dropWhile Char.isDigit
  match rest with
  | [] => if intPart.isEmpty then none else some (p.1 * digitsVal intPart)
  | '.' :: rest2 =>
    let fracPart := rest2.takeWhile Char.isDigit
    let rest3 := rest2.dropWhile Char.isDigit
    if intPart.isEmpty && fracPart.isEmpty then none
    else
      parseExp (p.1 * ((digitsVal intPart : Rat) +
        (digitsVal fracPart : Rat) / 10 ^ fracPart.length)) rest3
  | _ => if intPart.isEmpty then none else parseExp (p.1 * digitsVal intPart) rest

/-- Model of Python `float(x)` on an arbitrary value, as used on the
submitted answer in the numeric branch. Numeric values convert by value,
strings are parsed, and every other kind fails (`TypeError`, caught
together with `ValueError` by the source). -/
def pyFloat? : PyVal → Option Rat
  | .vbool b => some (if b then 1 else 0)
  | .vint n => some (n : Rat)
  | .vfloat q => some q
  | .vstr s => parseFloat? s
  | _ => none

/-- Model of Python `str.lower()`: per-character lowercasing. -/
def pyLower (s : String) : String :=
  String.mk (s.data.map Char.toLower)

/-- Modelled rendering of a float value inside an f-string: integral
values render as Python floats do (`5.0`); other rationals use the
default rational rendering (the feedback strings the claims exercise
only render integral floats). -/
def fmtFloat (q : Rat) : String :=
  if q.den = 1 then toString q.num ++ ".0" else toString q

/-- Model of Python `str(x)` as used when a value is interpolated into
an f-string. List rendering is not needed by any feedback string. -/
def pyStr : PyVal → String
  | .vnone => "None"
  | .vbool b => if b then "True" else "False"
  | .vint n => toString n
  | .vfloat q => fmtFloat q
  | .vstr s => s
  | .vlist _ => "[...]"

/-- Sort key used by the model of Python `sorted` on numeric values. -/
def pyKey (v : PyVal) : Rat := v.toRat?.getD 0

/-- Comparison on numeric Python values, by numeric value. -/
def pyValLe (a b : PyVal) : Prop := pyKey a ≤ pyKey b

instance : DecidableRel pyValLe :=
  fun a b => inferInstanceAs (Decidable (pyKey a ≤ pyKey b))

/-- String comparison on Python values (lexicographic). -/
def pyStrLe (a b : PyVal) : Prop := ¬ pyStr b < pyStr a

instance : DecidableRel pyStrLe :=
  fun a b => inferInstanceAs (Decidable (¬ pyStr b < pyStr a))

/-- Model of Python `sorted` on a list of values: lists of length at
most one involve no comparison; homogeneous numeric lists and
homogeneous string lists sort stably by their natural order (insertion
sort is stable, as Python sorting is); any other mix of kinds is
modelled as a `TypeError` (`none`). -/
def pySorted? (l : List PyVal) : Option (List PyVal) :=
  if l.length ≤ 1 then some l
  else if l.all (fun v => v.toRat?.isSome) then
    some (List.insertionSort pyValLe l)
  else if l.all (fun v => match v with | .vstr _ => true | _ => false) then
    some (List.insertionSort pyStrLe l)
  else none

/-- The content dict of a memocard, as `verify_answer` reads it through
`content.get`. Every field is optional because the service reads a raw
dict; cards created through the validated schemas populate the fields
matching their type. -/
structure Content where
  correct_answer : Option PyVal := none
  correct_options : Option (List Int) := none
  options : Option (List String) := none
  case_sensitive : Option PyVal := none
  tolerance : Option PyVal := none
  unit : Option PyVal := none

/-- A memocard document, restricted to the fields the verification and
aggregation code reads. -/
structure Memocard where
  id : String
  type : String
  is_active : Bool
  content : Content
  difficulty : String
  subject : String

/-- A response document as created by `verify_answer`
(`created_at` and the Mongo `_id` are server-assigned and not modelled). -/
structure Response where
  student_id : String
  memocard_id : String
  answer : PyVal
  is_correct : Bool
  feedback : String
  attempts : Nat
  time_spent_seconds : Option Int := none

/-- The error outcomes of `verify_answer`: the three `AppException`
error codes it raises, plus `runtime_error` for an uncaught Python
exception (`AttributeError`, `TypeError` or `IndexError`) escaping the
grading code. -/
inductive AppError where
  | memocard_not_found
  | inactive_memocard
  | unknown_memocard_type
  | runtime_error
deriving DecidableEq

/-- `ResponseRepository.find_responses_by_student_and_memocard`:
the responses of one student to one card, fetched through
`BaseRepository.find_many`, which sorts by `created_at` descending and
applies its default `limit=100`: at most the 100 most recent matching
responses are returned. The ledger list is in creation order, so newest
first is the reverse. Only the length of the result is used by
`verify_answer`. -/
def find_responses_by_student_and_memocard
    (L : List Response) (student_id memocard_id : String) : List Response :=
  ((L.filter (fun r =>
    r.student_id == student_id && r.memocard_id == memocard_id)).reverse).take 100

/-- The list comprehension building `correct_texts` in the
multiple-choice feedback: indices `i < len(options)` are kept and looked
up with Python indexing (negative indices count from the end; an
out-of-range negative index is an `IndexError`, modelled by `none`). -/
def correct_texts (options : List String) (correct_options : List Int) :
    Option (List String) :=
  (correct_options.filter (fun i => decide (i < (options.length : Int)))).mapM
    (fun i =>
      if 0 ≤ i then options.get? i.toNat
      else if 0 ≤ (options.length : Int) + i then
        options.get? ((options.length : Int) + i).toNat
      else none)

/-- The per-type grading step of `MemocardService.verify_answer`
(lines 263-329): given the card and the submitted answer, produce the
possibly normalized answer that will be stored, the correctness flag
and the feedback string, or the raised error. It reads nothing but the
card and the answer. -/
def grade_answer (memocard : Memocard) (answer : PyVal) :
    Except AppError (PyVal × Bool × String) :=
  let content := memocard.content
  if memocard.type == "true_false" then
    let correct_answer := content.correct_answer.getD .vnone
    let is_correct := pyEq answer correct_answer
    let feedback :=
      if is_correct then "Bonne réponse !"
      else "Réponse incorrecte. La bonne réponse est : " ++
        (if pyTruthy correct_answer then "Vrai" else "Faux")
    .ok (answer, is_correct, feedback)
  else if memocard.type == "multiple_choice" then
    let correct_options := content.correct_options.getD []
    let answer_list := match answer with
      | .vlist l => l
      | a => [a]
    match pySorted? answer_list with
    | none => .error .runtime_error
    | some sorted_answer =>
      let sorted_correct :=
        (List.insertionSort (fun a b : Int => a ≤ b) correct_options).map PyVal.vint
      let is_correct := pyEq (.vlist sorted_answer) (.vlist sorted_correct)
      if is_correct then .ok (answer, true, "Bonne réponse !")
      else
        let options := content.options.getD []
        match correct_texts options correct_options with
        | none => .error .runtime_error
        | some texts =>
          .ok (answer, false,
            "Réponse incorrecte. La bonne réponse est : " ++
              String.intercalate ", " texts)
  else if memocard.type == "text" then
    let correct_answer := content.correct_answer.getD (.vstr "")
    let case_sensitive := pyTruthy (content.case_sensitive.getD (.vbool false))
    if case_sensitive then
      let is_correct := pyEq answer correct_answer
      .ok (answer, is_correct,
        if is_correct then "Bonne réponse !"
        else "Réponse incorrecte. La bonne réponse est : " ++ pyStr correct_answer)
    else
      match answer, correct_answer with
      | .vstr a, .vstr c =>
        let a2 := pyLower a
        let c2 := pyLower c
        let is_correct := a2 == c2
        .ok (.vstr a2, is_correct,
          if is_correct then "Bonne réponse !"
          else "Réponse incorrecte. La bonne réponse est : " ++ c2)
      | _, _ => .error .runtime_error
  else if memocard.type == "numeric" then
    match pyFloat? (content.correct_answer.getD (.vint 0)),
        pyFloat? (content.tolerance.getD (.vint 0)) with
    | some correct_answer, some tolerance =>
      match pyFloat? answer with
      | none =>
        .ok (answer, false, "Réponse invalide. La réponse doit être un nombre.")
      | some numeric_answer =>
        let is_correct := decide (|numeric_answer - correct_answer| ≤ tolerance)
        if is_correct then .ok (answer, true, "Bonne réponse !")
        else
          let u := content.unit.getD (.vstr "")
          let unit_suffix := if pyTruthy u then " " ++ pyStr u else ""
          .ok (answer, false,
            "Réponse incorrecte. La bonne réponse est : " ++
              fmtFloat correct_answer ++ unit_suffix)
    | _, _ => .error .runtime_error
  else .error .unknown_memocard_type

/-- `MemocardService.verify_answer`: look up the card, require it to be
active, derive the attempt count from the prior responses of this
student to this card, grade the answer, and append the new response to
the ledger. On error nothing is appended. -/
def verify_answer (catalog : List Memocard) (L : List Response)
    (memocard_id student_id : String) (answer : PyVal)
    (time_spent_seconds : Option Int) :
    Except AppError (Response × List Response) :=
  match catalog.find? (fun m => m.id == memocard_id) with
  | none => .error .memocard_not_found
  | some memocard =>
    if !memocard.is_active then .error .inactive_memocard
    else
      let attempts :=
        (find_responses_by_student_and_memocard L student_id memocard_id).length + 1
      match grade_answer memocard answer with
      | .error e => .error e
      | .ok (answer2, is_correct, feedback) =>
        let response : Response :=
          { student_id := student_id, memocard_id := memocard_id,
            answer := answer2, is_correct := is_correct, feedback := feedback,
            attempts := attempts, time_spent_seconds := time_spent_seconds }
        .ok (response, L ++ [response])

/-- Run `verify_answer` a number of times sequentially with the same
submission, threading the ledger; a raised error leaves the ledger as
it is. -/
def verify_run (catalog : List Memocard)
    (memocard_id student_id : String) (answer : PyVal)
    (time_spent_seconds : Option Int) : Nat → List Response → List Response
  | 0, L => L
  | n + 1, L =>
    match verify_answer catalog L memocard_id student_id answer
        time_spent_seconds with
    | .ok (_, L2) =>
      verify_run catalog memocard_id student_id answer time_spent_seconds n L2
    | .error _ => L

/-- Per-group statistics of the `by_difficulty` and `by_subject`
aggregations (`total` is intentionally left 0 by the aggregation). -/
structure GroupStats where
  answered : Nat
  correct : Nat
  accuracy : Rat
  total : Nat := 0
deriving DecidableEq

/-- `StudentProgress` (models/response.py): all fields default to
zero or empty. -/
structure StudentProgress where
  total_memocards : Nat := 0
  answered_memocards : Nat := 0
  correct_answers : Nat := 0
  accuracy_rate : Rat := 0
  average_time_seconds : Rat := 0
  by_difficulty : List (String × GroupStats) := []
  by_subject : List (String × GroupStats) := []
deriving DecidableEq

/-- The grouped aggregation pipelines of `calculate_student_progress`:
responses are joined to their card (a response whose card is missing is
dropped by the unwind stage), grouped by a card dimension, and counted. -/
def group_counts (pairs : List (Response × Memocard)) (key : Memocard → String) :
    List (String × GroupStats) :=
  ((pairs.map (fun p => key p.2)).dedup).map (fun k =>
    let grp := pairs.filter (fun p => key p.2 == k)
    let answered := grp.length
    let correct := (grp.filter (fun p => p.1.is_correct)).length
    (k, { answered := answered, correct := correct,
          accuracy := if answered > 0 then (correct : Rat) / answered * 100 else 0,
          total := 0 }))

/-- `ResponseRepository.calculate_student_progress`: derive the progress
statistics of one student from the response ledger and the card catalog,
given the externally supplied catalog count. -/
def calculate_student_progress (catalog : List Memocard) (L : List Response)
    (student_id : String) (total_memocards_by_level : Nat) : StudentProgress :=
  let mine := L.filter (fun r => r.student_id == student_id)
  let total_responses := mine.length
  if total_responses = 0 then
    { total_memocards := total_memocards_by_level }
  else
    let answered_memocards := ((mine.map (fun r => r.memocard_id)).dedup).length
    let correct_answers := (mine.filter (fun r => r.is_correct)).length
    let accuracy_rate :=
      if total_responses > 0 then
        (correct_answers : Rat) / total_responses * 100
      else 0
    let times := mine.filterMap (fun r => r.time_spent_seconds)
    let average_time_seconds :=
      if times.length > 0 then ((times.sum : Rat)) / times.length else 0
    let joined := mine.filterMap (fun r =>
      (catalog.find? (fun m => m.id == r.memocard_id)).map (fun m => (r, m)))
    { total_memocards := total_memocards_by_level,
      answered_memocards := answered_memocards,
      correct_answers := correct_answers,
      accuracy_rate := accuracy_rate,
      average_time_seconds := average_time_seconds,
      by_difficulty := group_counts joined (fun m => m.difficulty),
      by_subject := group_counts joined (fun m => m.subject) }

/-! Concrete fixture cards and ledgers used by witnesses and counterexamples. -/

/-- An active true/false card whose stored correct answer is `True`. -/
def tfCard : Memocard :=
  { id := "c1", type := "true_false", is_active := true,
    content := { correct_answer := some (.vbool true) },
    difficulty := "easy", subject := "Géométrie" }

/-- An active multiple-choice card with options A, B, C and correct
options 0 and 2. -/
def mcCard : Memocard :=
  { id := "c2", type := "multiple_choice", is_active := true,
    content := { correct_options := some [0, 2], options := some ["A", "B", "C"] },
    difficulty := "easy", subject := "Géométrie" }

/-- An active multiple-choice card with a single correct option 0. -/
def mcSingleCard : Memocard :=
  { id := "c4", type := "multiple_choice", is_active := true,
    content := { correct_options := some [0], options := some ["A", "B"] },
    difficulty := "easy", subject := "Géométrie" }

/-- The numeric card of the concrete scenario of the spec:
correct answer 5.0, tolerance 0.1, unit cm. -/
def numCard : Memocard :=
  { id := "c3", type := "numeric", is_active := true,
    content := { correct_answer := some (.vfloat 5),
                 tolerance := some (.vfloat (1/10)),
                 unit := some (.vstr "cm") },
    difficulty := "medium", subject := "Géométrie" }

/-- An active case-insensitive text card with stored answer Paris. -/
def textCard : Memocard :=
  { id := "c5", type := "text", is_active := true,
    content := { correct_answer := some (.vstr "Paris"),
                 case_sensitive := some (.vbool false) },
    difficulty := "easy", subject := "Géographie" }

/-- An active case-sensitive text card with stored answer Paris. -/
def textCardCS : Memocard :=
  { id := "c6", type := "text", is_active := true,
    content := { correct_answer := some (.vstr "Paris"),
                 case_sensitive := some (.vbool true) },
    difficulty := "easy", subject := "Géographie" }

/-- An inactive card. -/
def inactiveCard : Memocard :=
  { id := "i1", type := "true_false", is_active := false,
    content := { correct_answer := some (.vbool true) },
    difficulty := "easy", subject := "Géométrie" }

/-- A card whose stored type is outside the fixed set of four types. -/
def unknownCard : Memocard :=
  { id := "u1", type := "flashcard", is_active := true,
    content := {}, difficulty := "easy", subject := "Géométrie" }

/-- A ledger with two responses of one student to the same card, both
correct, and one response of another student. -/
def sampleLedger : List Response :=
  [ { student_id := "s1", memocard_id := "c1", answer := .vbool true,
      is_correct := true, feedback := "Bonne réponse !", attempts := 1 },
    { student_id := "s1", memocard_id := "c1", answer := .vbool true,
      is_correct := true, feedback := "Bonne réponse !", attempts := 2 },
    { student_id := "s2", memocard_id := "c1", answer := .vbool false,
      is_correct := false, feedback := "f", attempts := 1 } ]

/-- One recorded response of student s1 to card c1, used to build a
ledger already holding many prior responses. -/
def priorResp : Response :=
  { student_id := "s1", memocard_id := "c1", answer := .vbool true,
    is_correct := true, feedback := "Bonne réponse !", attempts := 1 }

end MathsIA

namespace MathsIA

/-- A boolean equal to true exactly when a decidable proposition holds
is the decision of that proposition. -/
theorem bool_eq_decide {b : Bool} {p : Prop} [Decidable p]
    (h : b = true ↔ p) : b = decide p := by
  by_cases hp : p
  · simp [hp, h.mpr hp]
  · have hb : b ≠ true := fun hb => hp (h.mp hb)
    simp [hp, Bool.eq_false_iff.mpr hb]

/-- Python equality on two int values is int equality. -/
theorem pyScalarEq_vint (x y : Int) :
    pyScalarEq (.vint x) (.vint y) = (x == y) := by
  show ((x : Rat) == (y : Rat)) = (x == y)
  rcases eq_or_ne x y with h | h
  · subst h; simp
  · have hr : (x : Rat) ≠ (y : Rat) := by exact_mod_cast h
    rw [beq_eq_false_iff_ne.mpr hr, beq_eq_false_iff_ne.mpr h]

/-- Python equality on two lists of int values holds exactly when the
int lists are equal. -/
theorem pyEq_vint_list_iff : ∀ (a b : List Int),
    pyEq (.vlist (a.map .vint)) (.vlist (b.map .vint)) = true ↔ a = b
  | [], [] => by simp [pyEq]
  | [], _ :: _ => by simp [pyEq]
  | _ :: _, [] => by simp [pyEq]
  | x :: xs, y :: ys => by
    have ih := pyEq_vint_list_iff xs ys
    simp only [pyEq, List.map_cons, List.length_cons, List.zip_cons_cons,
      List.all_cons, Bool.and_eq_true, beq_iff_eq, Nat.add_right_cancel_iff,
      pyScalarEq_vint, List.length_map, List.cons.injEq] at ih ⊢
    tauto

/-- Python equality on two lists of int values, as a decision of list
equality. -/
theorem pyEq_vint_list (a b : List Int) :
    pyEq (.vlist (a.map .vint)) (.vlist (b.map .vint)) = decide (a = b) :=
  bool_eq_decide (pyEq_vint_list_iff a b)

/-- Ordered insertion on int values commutes with the embedding into
Python values. -/
theorem orderedInsert_vint (a : Int) : ∀ (l : List Int),
    List.orderedInsert pyValLe (.vint a) (l.map .vint) =
      (List.orderedInsert (fun x y : Int => x ≤ y) a l).map PyVal.vint
  | [] => rfl
  | b :: t => by
    simp only [List.map_cons, List.orderedInsert]
    by_cases h : a ≤ b
    · rw [if_pos (show pyValLe (.vint a) (.vint b) from by
        show ((a : Rat)) ≤ (b : Rat)
        exact_mod_cast h), if_pos h]
      rfl
    · rw [if_neg (show ¬ pyValLe (.vint a) (.vint b) from fun hc => by
        apply h
        have : ((a : Rat)) ≤ (b : Rat) := hc
        exact_mod_cast this), if_neg h, orderedInsert_vint a t, List.map_cons]

/-- Insertion sort on int values commutes with the embedding into
Python values. -/
theorem insertionSort_vint : ∀ (l : List Int),
    List.insertionSort pyValLe (l.map .vint) =
      (List.insertionSort (fun x y : Int => x ≤ y) l).map PyVal.vint
  | [] => rfl
  | a :: t => by
    simp only [List.map_cons, List.insertionSort, insertionSort_vint t,
      orderedInsert_vint a]

/-- The model of Python `sorted` always succeeds on a list of int
values and sorts it. -/
theorem pySorted_map_vint (l : List Int) :
    pySorted? (l.map .vint) =
      some (List.insertionSort pyValLe (l.map .vint)) := by
  unfold pySorted?
  by_cases h : (l.map PyVal.vint).length ≤ 1
  · rw [if_pos h]
    rcases l with _ | ⟨a, _ | ⟨b, t⟩⟩
    · rfl
    · rfl
    · simp at h
  · rw [if_neg h, if_pos]
    simp [List.all_eq_true, PyVal.toRat?]

/-- Two int lists have equal insertion sorts exactly when they are
permutations of each other. -/
theorem insertionSort_int_eq_iff (l m : List Int) :
    List.insertionSort (fun x y : Int => x ≤ y) l =
      List.insertionSort (fun x y : Int => x ≤ y) m ↔ l.Perm m := by
  constructor
  · intro h
    have p1 := List.perm_insertionSort (fun x y : Int => x ≤ y) l
    have p2 := List.perm_insertionSort (fun x y : Int => x ≤ y) m
    rw [h] at p1
    exact p1.symm.trans p2
  · intro h
    exact List.eq_of_perm_of_sorted
      ((List.perm_insertionSort _ l).trans
        (h.trans (List.perm_insertionSort _ m).symm))
      (List.sorted_insertionSort _ l)
      (List.sorted_insertionSort _ m)

/-- Grading of a multiple-choice card on a submitted list of indices:
the result is correct exactly when the submitted list is a permutation
of the stored correct options, and the feedback depends only on that
fact and on the card. -/
theorem grade_mc_list (memocard : Memocard) (opts : List Int)
    (optTexts texts : List String)
    (htype : memocard.type = "multiple_choice")
    (hopts : memocard.content.correct_options = some opts)
    (hoptTexts : memocard.content.options = some optTexts)
    (htexts : correct_texts optTexts opts = some texts) (l : List Int) :
    grade_answer memocard (.vlist (l.map .vint)) =
      .ok (.vlist (l.map .vint), decide (l.Perm opts),
        if l.Perm opts then "Bonne réponse !"
        else "Réponse incorrecte. La bonne réponse est : " ++
          String.intercalate ", " texts) := by
  have hsorted := pySorted_map_vint l
  have hkey : pyEq (.vlist (List.insertionSort pyValLe (l.map .vint)))
      (.vlist ((List.insertionSort (fun a b : Int => a ≤ b) opts).map PyVal.vint)) =
      decide (l.Perm opts) := by
    rw [insertionSort_vint l, pyEq_vint_list]
    exact decide_eq_decide.mpr (insertionSort_int_eq_iff l opts)
  by_cases hp : l.Perm opts
  · simp [grade_answer, htype, hopts, hoptTexts, hsorted, hkey, hp]
  · simp [grade_answer, htype, hopts, hoptTexts, htexts, hsorted, hkey, hp]

/-- Grading of a multiple-choice card on a submitted scalar index: the
scalar is normalized to the singleton list and graded like it. -/
theorem grade_mc_scalar (memocard : Memocard) (opts : List Int)
    (optTexts texts : List String)
    (htype : memocard.type = "multiple_choice")
    (hopts : memocard.content.correct_options = some opts)
    (hoptTexts : memocard.content.options = some optTexts)
    (htexts : correct_texts optTexts opts = some texts) (i : Int) :
    grade_answer memocard (.vint i) =
      .ok (.vint i, decide (([i] : List Int).Perm opts),
        if ([i] : List Int).Perm opts then "Bonne réponse !"
        else "Réponse incorrecte. La bonne réponse est : " ++
          String.intercalate ", " texts) := by
  have hsorted := pySorted_map_vint [i]
  simp only [List.map_cons, List.map_nil] at hsorted
  have hkey : pyEq (.vlist [PyVal.vint i])
      (.vlist ((List.insertionSort (fun a b : Int => a ≤ b) opts).map PyVal.vint)) =
      decide (([i] : List Int).Perm opts) := by
    have h3 := pyEq_vint_list [i]
      (List.insertionSort (fun a b : Int => a ≤ b) opts)
    simp only [List.map_cons, List.map_nil] at h3
    rw [h3]
    apply decide_eq_decide.mpr
    have h4 := insertionSort_int_eq_iff [i] opts
    rw [show List.insertionSort (fun x y : Int => x ≤ y) [i] = [i] from rfl] at h4
    exact h4
  by_cases hp : ([i] : List Int).Perm opts
  · simp [grade_answer, htype, hopts, hoptTexts, hsorted, hkey, hp]
  · simp [grade_answer, htype, hopts, hoptTexts, htexts, hsorted, hkey, hp]

/-- A successful `verify_answer` call appends exactly its response to
the ledger, and that response carries the submitted identities and an
attempt count of one plus the number of prior responses of this student
to this card. -/
theorem verify_answer_ok_shape {catalog : List Memocard} {L : List Response}
    {memocard_id student_id : String} {answer : PyVal} {ts : Option Int}
    {r : Response} {L2 : List Response}
    (h : verify_answer catalog L memocard_id student_id answer ts = .ok (r, L2)) :
    L2 = L ++ [r] ∧ r.student_id = student_id ∧ r.memocard_id = memocard_id ∧
    r.attempts =
      (find_responses_by_student_and_memocard L student_id memocard_id).length + 1 := by
  cases hf : catalog.find? (fun m => m.id == memocard_id) with
  | none => simp [verify_answer, hf] at h
  | some m =>
    cases ha : m.is_active with
    | false => simp [verify_answer, hf, ha] at h
    | true =>
      cases hg : grade_answer m answer with
      | error e => simp [verify_answer, hf, ha, hg] at h
      | ok g =>
        simp only [verify_answer, hf, ha, hg, Bool.not_true, Bool.false_eq_true,
          if_false] at h
        cases h
        exact ⟨rfl, rfl, rfl, rfl⟩

/-- Grading reads only the card and the answer, so a call that succeeds
on one ledger succeeds on every ledger, producing the same response up
to the attempt count. -/
theorem verify_answer_count_shift {catalog : List Memocard} {L0 : List Response}
    {memocard_id student_id : String} {answer : PyVal} {ts : Option Int}
    {r0 : Response} {L0' : List Response}
    (h : verify_answer catalog L0 memocard_id student_id answer ts = .ok (r0, L0'))
    (L : List Response) :
    verify_answer catalog L memocard_id student_id answer ts =
      .ok ({ r0 with attempts :=
              (find_responses_by_student_and_memocard L student_id memocard_id).length + 1 },
        L ++ [{ r0 with attempts :=
              (find_responses_by_student_and_memocard L student_id memocard_id).length + 1 }]) := by
  cases hf : catalog.find? (fun m => m.id == memocard_id) with
  | none => simp [verify_answer, hf] at h
  | some m =>
    cases ha : m.is_active with
    | false => simp [verify_answer, hf, ha] at h
    | true =>
      cases hg : grade_answer m answer with
      | error e => simp [verify_answer, hf, ha, hg] at h
      | ok g =>
        simp only [verify_answer, hf, ha, hg, Bool.not_true, Bool.false_eq_true,
          if_false] at h ⊢
        cases h
        rfl

/-- The repository lookup returns at most 100 documents: its length is
the per-student-per-card response count capped at 100. -/
theorem find_responses_length (L : List Response)
    (student_id memocard_id : String) :
    (find_responses_by_student_and_memocard L student_id memocard_id).length =
      min 100 (L.filter (fun r =>
        r.student_id == student_id && r.memocard_id == memocard_id)).length := by
  simp [find_responses_by_student_and_memocard]

/-- Appending a matching response grows the full per-student-per-card
filter of the ledger by exactly that response. -/
theorem filter_matching_append (L : List Response) (r : Response)
    (student_id memocard_id : String)
    (h1 : r.student_id = student_id) (h2 : r.memocard_id = memocard_id) :
    (L ++ [r]).filter (fun x =>
        x.student_id == student_id && x.memocard_id == memocard_id) =
      L.filter (fun x =>
        x.student_id == student_id && x.memocard_id == memocard_id) ++ [r] := by
  simp [List.filter_append, h1, h2]

/-- Closed form of the repeated run: starting from any ledger, N
sequential identical submissions append N copies of the first response
whose attempt counts continue the current per-student-per-card count,
with the prior-response count capped at 100 by the repository limit. -/
theorem verify_run_closed {catalog : List Memocard} {L0 : List Response}
    {memocard_id student_id : String} {answer : PyVal} {ts : Option Int}
    {r0 : Response} {L0' : List Response}
    (h : verify_answer catalog L0 memocard_id student_id answer ts = .ok (r0, L0')) :
    ∀ (N : Nat) (L : List Response),
      verify_run catalog memocard_id student_id answer ts N L =
        L ++ (List.range N).map (fun j =>
          { r0 with attempts := min 100 ((L.filter (fun x =>
              x.student_id == student_id && x.memocard_id == memocard_id)).length
            + j) + 1 }) := by
  intro N
  induction N with
  | zero => intro L; simp [verify_run]
  | succ n ih =>
    intro L
    have hshape := verify_answer_ok_shape h
    set c := (L.filter (fun x =>
      x.student_id == student_id && x.memocard_id == memocard_id)).length with hc
    set k := (find_responses_by_student_and_memocard L student_id memocard_id).length + 1
      with hk
    have hkc : k = min 100 c + 1 := by rw [hk, find_responses_length, hc]
    have hr1 : ({ r0 with attempts := k } : Response).student_id = student_id :=
      hshape.2.1
    have hr2 : ({ r0 with attempts := k } : Response).memocard_id = memocard_id :=
      hshape.2.2.1
    have happ := filter_matching_append L { r0 with attempts := k }
      student_id memocard_id hr1 hr2
    have harith : ∀ j : Nat, c + 1 + j = c + (j + 1) := fun j => by omega
    rw [verify_run, verify_answer_count_shift h L]
    show verify_run catalog memocard_id student_id answer ts n
        (L ++ [{ r0 with attempts := k }]) =
      L ++ (List.range (n + 1)).map (fun j =>
        { r0 with attempts := min 100 (c + j) + 1 })
    rw [ih]
    simp only [happ, List.length_append, List.length_cons, List.length_nil, ← hc]
    simp [List.range_succ_eq_map, List.map_map, Function.comp, List.append_assoc,
      hkc, harith]

/-- C4 counterexample: the repository lookup feeding the attempts
computation returns at most 100 documents, so on a ledger already
holding 101 responses of the student to the card, the next call records
attempts = 101 although the count of prior responses plus one is 102 —
the claimed attempts = prior count + 1 fails once the cap is passed. -/
theorem C4_counterexample :
    (verify_answer [tfCard] (List.replicate 101 priorResp) "c1" "s1"
        (.vbool true) none).map (fun p => p.1.attempts) = .ok 101 ∧
    ((List.replicate 101 priorResp).filter (fun r =>
      r.student_id == "s1" && r.memocard_id == "c1")).length + 1 = 102 :=
  ⟨rfl, rfl⟩

/-- C4 amended: every successful call of `verify_answer` appends one
response whose attempts field is one plus the number of prior responses
of that student to that card capped at 100 (the repository lookup
returns at most the 100 most recent documents), never touching earlier
responses; consequently N sequential calls for a (student, card) pair
with no prior responses produce responses whose attempts fields are
1, 2, ..., capping at 101 from the 101st response onward, appended in
creation order after the untouched initial ledger. -/
theorem C4_capped_attempts (catalog : List Memocard) (L0 : List Response)
    (memocard_id student_id : String) (answer : PyVal) (ts : Option Int)
    (r0 : Response) (L0' : List Response)
    (hsucc : verify_answer catalog L0 memocard_id student_id answer ts = .ok (r0, L0'))
    (hfresh : L0.filter (fun r =>
      r.student_id == student_id && r.memocard_id == memocard_id) = []) :
    (∀ L r L2, verify_answer catalog L memocard_id student_id answer ts = .ok (r, L2) →
      L2 = L ++ [r] ∧
      r.attempts = min 100 (L.filter (fun x =>
        x.student_id == student_id && x.memocard_id == memocard_id)).length + 1) ∧
    (∀ N, verify_run catalog memocard_id student_id answer ts N L0 =
      L0 ++ (List.range N).map (fun j => { r0 with attempts := min 100 j + 1 })) := by
  constructor
  · intro L r L2 hok
    have hshape := verify_answer_ok_shape hok
    refine ⟨hshape.1, ?_⟩
    rw [hshape.2.2.2, find_responses_length]
  · intro N
    have hclosed := verify_run_closed hsucc N L0
    rw [hfresh] at hclosed
    simpa using hclosed

/-- C4 witness: three sequential submissions of True to the true_false
fixture card by a fresh student yield three appended responses with
attempts 1, 2, 3 (all below the cap). -/
theorem C4_capped_attempts_witness :
    verify_run [tfCard] "c1" "s1" (.vbool true) none 3 [] =
      [{ student_id := "s1", memocard_id := "c1", answer := .vbool true,
         is_correct := true, feedback := "Bonne réponse !", attempts := 1,
         time_spent_seconds := none },
       { student_id := "s1", memocard_id := "c1", answer := .vbool true,
         is_correct := true, feedback := "Bonne réponse !", attempts := 2,
         time_spent_seconds := none },
       { student_id := "s1", memocard_id := "c1", answer := .vbool true,
         is_correct := true, feedback := "Bonne réponse !", attempts := 3,
         time_spent_seconds := none }] := by
  have h := (C4_capped_attempts [tfCard] [] "c1" "s1" (.vbool true) none
    { student_id := "s1", memocard_id := "c1", answer := .vbool true,
      is_correct := true, feedback := "Bonne réponse !", attempts := 1,
      time_spent_seconds := none } _ rfl rfl).2 3
  rw [h]
  rfl

/-- C5: `verify_answer` fails with the card-not-found error code when no
card with the given id exists, fails with the inactive-card error code
when the card exists but is inactive, and whenever it fails with any
error the ledger is left unchanged (no response is recorded). -/
theorem C5_preconditions (catalog : List Memocard) (L : List Response)
    (memocard_id student_id : String) (answer : PyVal) (ts : Option Int) :
    (catalog.find? (fun m => m.id == memocard_id) = none →
      verify_answer catalog L memocard_id student_id answer ts =
        .error .memocard_not_found) ∧
    (∀ memocard, catalog.find? (fun m => m.id == memocard_id) = some memocard →
      memocard.is_active = false →
      verify_answer catalog L memocard_id student_id answer ts =
        .error .inactive_memocard) ∧
    (∀ e, verify_answer catalog L memocard_id student_id answer ts = .error e →
      verify_run catalog memocard_id student_id answer ts 1 L = L) := by
  refine ⟨fun h => ?_, fun m hm hia => ?_, fun e he => ?_⟩
  · simp [verify_answer, h]
  · simp [verify_answer, hm, hia]
  · simp [verify_run, he]

/-- C5 witness: a lookup in an empty catalog fails with the not-found
code, a lookup of an inactive card fails with the inactive code, and the
ledger is unchanged. -/
theorem C5_preconditions_witness :
    verify_answer [] [] "c1" "s1" (.vbool true) none =
      .error .memocard_not_found ∧
    verify_answer [inactiveCard] [] "i1" "s1" (.vbool true) none =
      .error .inactive_memocard ∧
    verify_run [] "c1" "s1" (.vbool true) none 1 [] = [] := by
  have h := C5_preconditions [] [] "c1" "s1" (.vbool true) none
  have h2 := C5_preconditions [inactiveCard] [] "i1" "s1" (.vbool true) none
  refine ⟨h.1 rfl, h2.2.1 inactiveCard rfl rfl, h.2.2 _ (h.1 rfl)⟩

/-- C7: for a student with no responses in the ledger,
`calculate_student_progress` returns the supplied catalog count as
`total_memocards` and every other field at its zero or empty default. -/
theorem C7_zero_responses (catalog : List Memocard) (L : List Response)
    (student_id : String) (T : Nat)
    (h : L.filter (fun r => r.student_id == student_id) = []) :
    calculate_student_progress catalog L student_id T =
      { total_memocards := T, answered_memocards := 0, correct_answers := 0,
        accuracy_rate := 0, average_time_seconds := 0,
        by_difficulty := [], by_subject := [] } := by
  simp [calculate_student_progress, h]

/-- C7 witness: a student absent from a nonempty ledger gets the
all-default progress with the supplied total. -/
theorem C7_zero_responses_witness :
    sampleLedger.filter (fun r => r.student_id == "s9") = [] ∧
    calculate_student_progress [tfCard] sampleLedger "s9" 42 =
      { total_memocards := 42, answered_memocards := 0, correct_answers := 0,
        accuracy_rate := 0, average_time_seconds := 0,
        by_difficulty := [], by_subject := [] } :=
  ⟨rfl, C7_zero_responses [tfCard] sampleLedger "s9" 42 rfl⟩

/-- C8: for a student with at least one response,
`calculate_student_progress` counts `correct_answers` per response over
all of the student responses (repeat attempts at the same card each
count), and `accuracy_rate` is that count divided by the number of
responses, times 100. -/
theorem C8_accuracy (catalog : List Memocard) (L : List Response)
    (student_id : String) (T : Nat)
    (h : L.filter (fun r => r.student_id == student_id) ≠ []) :
    (calculate_student_progress catalog L student_id T).correct_answers =
      ((L.filter (fun r => r.student_id == student_id)).filter
        (fun r => r.is_correct)).length ∧
    (calculate_student_progress catalog L student_id T).accuracy_rate =
      (((L.filter (fun r => r.student_id == student_id)).filter
          (fun r => r.is_correct)).length : Rat) /
        (L.filter (fun r => r.student_id == student_id)).length * 100 := by
  have hlen : (L.filter (fun r => r.student_id == student_id)).length ≠ 0 := by
    simpa [List.length_eq_zero] using h
  constructor <;> simp [calculate_student_progress, hlen, Nat.pos_of_ne_zero hlen]

/-- C8 witness: two correct responses of the same student to the same
card give `correct_answers` 2 (counted per response, not per distinct
card) and accuracy 100. -/
theorem C8_accuracy_witness :
    sampleLedger.filter (fun r => r.student_id == "s1") ≠ [] ∧
    (calculate_student_progress [tfCard] sampleLedger "s1" 42).correct_answers = 2 ∧
    (calculate_student_progress [tfCard] sampleLedger "s1" 42).accuracy_rate = 100 := by
  have hne : sampleLedger.filter (fun r => r.student_id == "s1") ≠ [] :=
    List.length_pos.mp (by decide)
  have h := C8_accuracy [tfCard] sampleLedger "s1" 42 hne
  have e1 : ((sampleLedger.filter (fun r => r.student_id == "s1")).filter
      (fun r => r.is_correct)).length = 2 := rfl
  have e2 : (sampleLedger.filter (fun r => r.student_id == "s1")).length = 2 := rfl
  refine ⟨hne, ?_, ?_⟩
  · rw [h.1]; rfl
  · rw [h.2, e1, e2]; norm_num

/-- C1 counterexample: on a multiple-choice card whose stored correct
options are the single index 0, the submission with the duplicate list
0, 0 denotes the same index set as the correct options, yet grading
compares sorted lists and grades it incorrect — so grading is not the
claimed exact set comparison. -/
theorem C1_counterexample :
    (verify_answer [mcSingleCard] [] "c4" "s1"
        (.vlist [.vint 0, .vint 0]) none).map (fun p => p.1.is_correct) =
      .ok false ∧
    ([0, 0] : List Int).toFinset = ([0] : List Int).toFinset := by
  refine ⟨?_, by decide⟩
  rfl

/-- C1 amended: multiple-choice grading normalizes a scalar answer to a
singleton list and compares the sorted submitted list with the sorted
stored correct options, so a submission is graded correct exactly when
it is a permutation (multiset equality, duplicates significant) of
correct_options; grading is invariant under the order of the submitted
indices, both in is_correct and in feedback, with no partial credit. -/
theorem C1_amended_multiset (catalog : List Memocard) (L : List Response)
    (memocard_id student_id : String) (ts : Option Int)
    (memocard : Memocard) (opts : List Int) (optTexts texts : List String)
    (hfind : catalog.find? (fun m => m.id == memocard_id) = some memocard)
    (hactive : memocard.is_active = true)
    (htype : memocard.type = "multiple_choice")
    (hopts : memocard.content.correct_options = some opts)
    (hoptTexts : memocard.content.options = some optTexts)
    (htexts : correct_texts optTexts opts = some texts) :
    (∀ i : Int,
      (verify_answer catalog L memocard_id student_id (.vint i) ts).map
        (fun p => (p.1.is_correct, p.1.feedback)) =
      (verify_answer catalog L memocard_id student_id (.vlist [.vint i]) ts).map
        (fun p => (p.1.is_correct, p.1.feedback))) ∧
    (∀ l : List Int,
      (verify_answer catalog L memocard_id student_id
          (.vlist (l.map .vint)) ts).map (fun p => p.1.is_correct) =
        .ok (decide (l.Perm opts))) ∧
    (∀ l l2 : List Int, l.Perm l2 →
      (verify_answer catalog L memocard_id student_id
          (.vlist (l.map .vint)) ts).map
        (fun p => (p.1.is_correct, p.1.feedback)) =
      (verify_answer catalog L memocard_id student_id
          (.vlist (l2.map .vint)) ts).map
        (fun p => (p.1.is_correct, p.1.feedback))) := by
  refine ⟨fun i => ?_, fun l => ?_, fun l l2 hperm => ?_⟩
  · have hs := grade_mc_scalar memocard opts optTexts texts
      htype hopts hoptTexts htexts i
    have hl := grade_mc_list memocard opts optTexts texts
      htype hopts hoptTexts htexts [i]
    simp only [List.map_cons, List.map_nil] at hl
    simp [verify_answer, hfind, hactive, hs, hl, Except.map]
  · have hl := grade_mc_list memocard opts optTexts texts
      htype hopts hoptTexts htexts l
    simp [verify_answer, hfind, hactive, hl, Except.map]
  · have h1 := grade_mc_list memocard opts optTexts texts
      htype hopts hoptTexts htexts l
    have h2 := grade_mc_list memocard opts optTexts texts
      htype hopts hoptTexts htexts l2
    have hiff : l.Perm opts ↔ l2.Perm opts :=
      ⟨fun h => hperm.symm.trans h, fun h => hperm.trans h⟩
    simp only [hiff] at h1
    simp [verify_answer, hfind, hactive, h1, h2, Except.map]

/-- C1 amended witness: on the fixture card with correct options 0 and
2, the submission 2, 0 is graded by permutation equality with the
stored options, and the scalar submission 0 is graded exactly like the
singleton list submission. -/
theorem C1_amended_multiset_witness :
    (verify_answer [mcCard] [] "c2" "s1" (.vlist [.vint 2, .vint 0]) none).map
      (fun p => p.1.is_correct) = .ok (decide (([2, 0] : List Int).Perm [0, 2])) ∧
    (verify_answer [mcCard] [] "c2" "s1" (.vint 0) none).map
      (fun p => (p.1.is_correct, p.1.feedback)) =
    (verify_answer [mcCard] [] "c2" "s1" (.vlist [.vint 0]) none).map
      (fun p => (p.1.is_correct, p.1.feedback)) := by
  have h := C1_amended_multiset [mcCard] [] "c2" "s1" none mcCard [0, 2]
    ["A", "B", "C"] ["A", "C"] rfl rfl rfl rfl rfl rfl
  constructor
  · simpa using h.2.1 [2, 0]
  · exact h.1 0

/-- C2 counterexample: an active true_false card whose stored answer is
the boolean True, submitted the string answer hello (a shape
incompatible with a boolean question), is silently graded
is_correct = false and recorded; no error of any kind is raised before
grading, contrary to the claim that such input is rejected. -/
theorem C2_counterexample :
    verify_answer [tfCard] [] "c1" "s1" (.vstr "hello") none =
      .ok ({ student_id := "s1", memocard_id := "c1", answer := .vstr "hello",
             is_correct := false,
             feedback := "Réponse incorrecte. La bonne réponse est : Vrai",
             attempts := 1, time_spent_seconds := none },
           [{ student_id := "s1", memocard_id := "c1", answer := .vstr "hello",
              is_correct := false,
              feedback := "Réponse incorrecte. La bonne réponse est : Vrai",
              attempts := 1, time_spent_seconds := none }]) := rfl

/-- C2 amended: `verify_answer` performs no answer-shape validation
before grading. A true_false card grades any submitted value by Python
equality against the stored boolean, so a shape-incompatible answer is
silently graded incorrect rather than rejected; and a case-insensitive
text card submitted a non-string answer fails with an uncaught runtime
type error, not an InvalidInput-kind rejection. Only the numeric
non-numeric case is graded incorrect with a distinct feedback. -/
theorem C2_amended_no_shape_validation :
    (∀ (catalog : List Memocard) (L : List Response)
        (memocard_id student_id : String) (ts : Option Int)
        (memocard : Memocard) (v : Bool),
      catalog.find? (fun m => m.id == memocard_id) = some memocard →
      memocard.is_active = true →
      memocard.type = "true_false" →
      memocard.content.correct_answer = some (.vbool v) →
      ∀ answer,
        (verify_answer catalog L memocard_id student_id answer ts).map
          (fun p => p.1.is_correct) = .ok (pyEq answer (.vbool v))) ∧
    (∀ (catalog : List Memocard) (L : List Response)
        (memocard_id student_id : String) (ts : Option Int)
        (memocard : Memocard) (ca : String),
      catalog.find? (fun m => m.id == memocard_id) = some memocard →
      memocard.is_active = true →
      memocard.type = "text" →
      memocard.content.correct_answer = some (.vstr ca) →
      memocard.content.case_sensitive = some (.vbool false) →
      ∀ n : Int,
        verify_answer catalog L memocard_id student_id (.vint n) ts =
          .error .runtime_error) := by
  constructor
  · intro catalog L memocard_id student_id ts memocard v hfind hactive htype hca answer
    simp [verify_answer, hfind, hactive, grade_answer, htype, hca, Except.map]
  · intro catalog L memocard_id student_id ts memocard ca hfind hactive htype hca hcs n
    simp [verify_answer, hfind, hactive, grade_answer, htype, hca, hcs, pyTruthy]

/-- C2 amended witness: the string hello submitted to the true_false
fixture card is graded incorrect without error, and the integer 3
submitted to the case-insensitive text fixture card raises a runtime
error. -/
theorem C2_amended_witness :
    (verify_answer [tfCard] [] "c1" "s1" (.vstr "hello") none).map
      (fun p => p.1.is_correct) = .ok (pyEq (.vstr "hello") (.vbool true)) ∧
    verify_answer [textCard] [] "c5" "s1" (.vint 3) none =
      .error .runtime_error :=
  ⟨C2_amended_no_shape_validation.1 [tfCard] [] "c1" "s1" none tfCard true
      rfl rfl rfl rfl (.vstr "hello"),
    C2_amended_no_shape_validation.2 [textCard] [] "c5" "s1" none textCard "Paris"
      rfl rfl rfl rfl rfl 3⟩

/-- C3: for a numeric card with stored correct answer c and tolerance t,
a submission that does not parse as a float is graded incorrect with the
must-be-a-number feedback without raising, a submission parsing to x is
graded correct exactly when the absolute difference from c is at most t
(boundary included), and on the concrete card with correct answer 5.0,
tolerance 0.1 and unit cm, 5.05 is graded correct while 5.2 is graded
incorrect with a feedback containing 5.0 cm. -/
theorem C3_numeric_tolerance (catalog : List Memocard) (L : List Response)
    (memocard_id student_id : String) (ts : Option Int)
    (memocard : Memocard) (c t : Rat)
    (hfind : catalog.find? (fun m => m.id == memocard_id) = some memocard)
    (hactive : memocard.is_active = true)
    (htype : memocard.type = "numeric")
    (hca : memocard.content.correct_answer = some (.vfloat c))
    (htol : memocard.content.tolerance = some (.vfloat t)) :
    (∀ answer, pyFloat? answer = none →
      (verify_answer catalog L memocard_id student_id answer ts).map
        (fun p => (p.1.is_correct, p.1.feedback)) =
        .ok (false, "Réponse invalide. La réponse doit être un nombre.")) ∧
    (∀ answer x, pyFloat? answer = some x →
      (verify_answer catalog L memocard_id student_id answer ts).map
        (fun p => p.1.is_correct) = .ok (decide (|x - c| ≤ t))) ∧
    (verify_answer [numCard] [] "c3" "s1" (.vfloat (101/20)) none).map
      (fun p => p.1.is_correct) = .ok true ∧
    (verify_answer [numCard] [] "c3" "s1" (.vfloat (26/5)) none).map
      (fun p => (p.1.is_correct, p.1.feedback)) =
      .ok (false, "Réponse incorrecte. La bonne réponse est : 5.0 cm") := by
  refine ⟨fun answer h => ?_, fun answer x h => ?_, ?_, ?_⟩
  · simp [verify_answer, hfind, hactive, grade_answer, htype, hca, htol, h,
      Except.map, show pyFloat? (.vfloat c) = some c from rfl,
      show pyFloat? (.vfloat t) = some t from rfl]
  · by_cases hc : |x - c| ≤ t <;>
      simp [verify_answer, hfind, hactive, grade_answer, htype, hca, htol, h, hc,
        Except.map, show pyFloat? (.vfloat c) = some c from rfl,
        show pyFloat? (.vfloat t) = some t from rfl]
  · have hc : |(101 : Rat)/20 - 5| ≤ (10 : Rat)⁻¹ := by
      rw [show (101 : Rat)/20 - 5 = 1/20 by norm_num,
        abs_of_pos (by norm_num : (0 : Rat) < 1/20)]
      norm_num
    simp [verify_answer, numCard, grade_answer, pyFloat?, Except.map, hc]
  · have hc : ¬ |(26 : Rat)/5 - 5| ≤ (10 : Rat)⁻¹ := by
      rw [show (26 : Rat)/5 - 5 = 1/5 by norm_num,
        abs_of_pos (by norm_num : (0 : Rat) < 1/5)]
      norm_num
    simp [verify_answer, numCard, grade_answer, pyFloat?, Except.map, hc,
      pyTruthy, pyStr, fmtFloat]
    rfl

/-- C3 witness: the general parts applied to the concrete numeric
fixture card: the non-numeric string abc is graded incorrect with the
must-be-a-number feedback, and the float 4.95 is graded by the
tolerance test. -/
theorem C3_numeric_tolerance_witness :
    (verify_answer [numCard] [] "c3" "s1" (.vstr "abc") none).map
      (fun p => (p.1.is_correct, p.1.feedback)) =
      .ok (false, "Réponse invalide. La réponse doit être un nombre.") ∧
    (verify_answer [numCard] [] "c3" "s1" (.vfloat (99/20)) none).map
      (fun p => p.1.is_correct) = .ok (decide (|(99 : Rat)/20 - 5| ≤ 1/10)) := by
  have h := C3_numeric_tolerance [numCard] [] "c3" "s1" none numCard 5 (1/10)
    rfl rfl rfl rfl rfl
  refine ⟨h.1 (.vstr "abc") rfl, ?_⟩
  exact h.2.1 (.vfloat (99/20)) (99/20) rfl

/-- C6: for a text card, grading lowercases both the submitted and the
stored answer when case_sensitive is false and compares verbatim when it
is true; correctness is exact string equality after that normalization,
and no whitespace trimming happens: an answer differing from the stored
one only by a leading space is graded incorrect. -/
theorem C6_text_case (catalog : List Memocard) (L : List Response)
    (memocard_id student_id : String) (ts : Option Int)
    (memocard : Memocard) (ca : String) (cs : Bool)
    (hfind : catalog.find? (fun m => m.id == memocard_id) = some memocard)
    (hactive : memocard.is_active = true)
    (htype : memocard.type = "text")
    (hca : memocard.content.correct_answer = some (.vstr ca))
    (hcs : memocard.content.case_sensitive = some (.vbool cs)) :
    (∀ s, (verify_answer catalog L memocard_id student_id (.vstr s) ts).map
      (fun p => p.1.is_correct) =
        .ok (if cs then s == ca else pyLower s == pyLower ca)) ∧
    (cs = false →
      (verify_answer catalog L memocard_id student_id (.vstr (" " ++ ca)) ts).map
        (fun p => p.1.is_correct) = .ok false) := by
  have main : ∀ s,
      (verify_answer catalog L memocard_id student_id (.vstr s) ts).map
        (fun p => p.1.is_correct) =
        .ok (if cs then s == ca else pyLower s == pyLower ca) := by
    intro s
    cases cs <;>
      simp [verify_answer, hfind, hactive, grade_answer, htype, hca, hcs,
        pyTruthy, pyEq, pyScalarEq, Except.map]
  refine ⟨main, fun hcsf => ?_⟩
  subst hcsf
  have hne : pyLower (" " ++ ca) ≠ pyLower ca := by
    intro hEq
    have hlen := congrArg (fun s => s.data.length) hEq
    simp [pyLower, String.data_append] at hlen
  rw [main (" " ++ ca), if_neg (by simp), beq_eq_false_iff_ne.mpr hne]

/-- C6 witness: on the case-insensitive fixture card storing Paris, the
submission paris is graded by lowercased equality (correct), and the
submission with a leading space is graded incorrect. -/
theorem C6_text_case_witness :
    (verify_answer [textCard] [] "c5" "s1" (.vstr "paris") none).map
      (fun p => p.1.is_correct) =
      .ok (if false then "paris" == "Paris"
           else pyLower "paris" == pyLower "Paris") ∧
    (verify_answer [textCard] [] "c5" "s1" (.vstr (" " ++ "Paris")) none).map
      (fun p => p.1.is_correct) = .ok false := by
  have h := C6_text_case [textCard] [] "c5" "s1" none textCard "Paris" false
    rfl rfl rfl rfl rfl
  exact ⟨h.1 "paris", h.2 rfl⟩

/-- C9: for a case-insensitive text card the recorded response stores
the lowercased form of the submitted answer, not the submitted string;
for a case-sensitive text card the submitted string is stored verbatim.
The successful call appends exactly that response to the ledger. -/
theorem C9_stored_answer (catalog : List Memocard) (L : List Response)
    (memocard_id student_id : String) (ts : Option Int)
    (memocard : Memocard) (ca : String) (cs : Bool)
    (hfind : catalog.find? (fun m => m.id == memocard_id) = some memocard)
    (hactive : memocard.is_active = true)
    (htype : memocard.type = "text")
    (hca : memocard.content.correct_answer = some (.vstr ca))
    (hcs : memocard.content.case_sensitive = some (.vbool cs)) :
    ∀ s,
      ((verify_answer catalog L memocard_id student_id (.vstr s) ts).map
        (fun p => p.1.answer) =
          .ok (if cs then PyVal.vstr s else .vstr (pyLower s))) ∧
      (∀ r L2,
        verify_answer catalog L memocard_id student_id (.vstr s) ts =
          .ok (r, L2) → L2 = L ++ [r]) := by
  intro s
  constructor
  · cases cs <;>
      simp [verify_answer, hfind, hactive, grade_answer, htype, hca, hcs,
        pyTruthy, Except.map]
  · intro r L2 hok
    simp only [verify_answer, hfind, hactive, Bool.not_true, Bool.false_eq_true,
      if_false] at hok
    cases hg : grade_answer memocard (.vstr s) with
    | error e => rw [hg] at hok; cases hok
    | ok g => rw [hg] at hok; cases hok; rfl

/-- C9 witness: on the case-insensitive fixture card, submitting PARIS
stores paris; the call appends the response it returns. -/
theorem C9_stored_answer_witness :
    (verify_answer [textCard] [] "c5" "s1" (.vstr "PARIS") none).map
      (fun p => p.1.answer) =
      .ok (if false then PyVal.vstr "PARIS" else .vstr (pyLower "PARIS")) :=
  ((C9_stored_answer [textCard] [] "c5" "s1" none textCard "Paris" false
    rfl rfl rfl rfl rfl) "PARIS").1

/-- C10: when the stored card type is outside the fixed four-element
set, `verify_answer` raises the unknown-type error after the existence
and activity preconditions, and the ledger is unchanged. -/
theorem C10_unknown_type (catalog : List Memocard) (L : List Response)
    (memocard_id student_id : String) (answer : PyVal) (ts : Option Int)
    (memocard : Memocard)
    (hfind : catalog.find? (fun m => m.id == memocard_id) = some memocard)
    (hactive : memocard.is_active = true)
    (h1 : memocard.type ≠ "true_false")
    (h2 : memocard.type ≠ "multiple_choice")
    (h3 : memocard.type ≠ "text")
    (h4 : memocard.type ≠ "numeric") :
    verify_answer catalog L memocard_id student_id answer ts =
      .error .unknown_memocard_type ∧
    verify_run catalog memocard_id student_id answer ts 1 L = L := by
  have hg : grade_answer memocard answer = .error .unknown_memocard_type := by
    simp [grade_answer, h1, h2, h3, h4]
  have hv : verify_answer catalog L memocard_id student_id answer ts =
      .error .unknown_memocard_type := by
    simp [verify_answer, hfind, hactive, hg]
  exact ⟨hv, by simp [verify_run, hv]⟩

/-- C10 witness: a card of type flashcard produces the unknown-type
error and leaves the ledger unchanged. -/
theorem C10_unknown_type_witness :
    verify_answer [unknownCard] [] "u1" "s1" (.vbool true) none =
      .error .unknown_memocard_type ∧
    verify_run [unknownCard] "u1" "s1" (.vbool true) none 1 [] = [] :=
  C10_unknown_type [unknownCard] [] "u1" "s1" (.vbool true) none unknownCard
    rfl rfl (by decide) (by decide) (by decide) (by decide)

end MathsIA
